import Mathlib

/-!
Shallow embedding of `bridge.go` from the gohue library (package `hue`).

Strings are modelled as `List Char` (all bodies involved are ASCII, so Go's
byte indices coincide with character indices).  The HTTP layer is external to
the library, so each operation is parameterised by the outcome of its network
round trip (`HttpOut`); the JSON/XML decoders from the Go standard library are
likewise passed in as parameters.  A Go run-time panic (out-of-range string
slice) is modelled by `none` in an outer `Option` layer: `none` means the
operation aborts the process instead of returning.
-/

namespace GoHue

/-- Characters of a Lean string literal; the model works over `List Char`. -/
def strL (s : String) : List Char := s.data

/-- Boolean prefix test on character lists, as used to model Go's
`strings.Index` scanning. -/
def isPrefixOfB : List Char → List Char → Bool
  | [], _ => true
  | _ :: _, [] => false
  | a :: as, b :: bs => if a = b then isPrefixOfB as bs else false

/-- Index of the first occurrence of `pat` in a list, if any
(Go `strings.Index` before the `-1` encoding). -/
def firstIdx (pat : List Char) : List Char → Option Nat
  | [] => if isPrefixOfB pat [] then some 0 else none
  | a :: t => if isPrefixOfB pat (a :: t) then some 0 else (firstIdx pat t).map (· + 1)

/-- Index of the last occurrence of `pat` in a list, if any
(Go `strings.LastIndex` before the `-1` encoding). -/
def lastIdxO (pat : List Char) : List Char → Option Nat
  | [] => if isPrefixOfB pat [] then some 0 else none
  | a :: t =>
    match lastIdxO pat t with
    | some n => some (n + 1)
    | none => if isPrefixOfB pat (a :: t) then some 0 else none

/-- Go `strings.Index`: first index of `pat` in `hay`, `-1` if absent. -/
def strIndex (hay pat : List Char) : Int :=
  match firstIdx pat hay with
  | some n => (n : Int)
  | none => -1

/-- Go `strings.LastIndex`: last index of `pat` in `hay`, `-1` if absent. -/
def strLastIndex (hay pat : List Char) : Int :=
  match lastIdxO pat hay with
  | some n => (n : Int)
  | none => -1

/-- Go `strings.Contains`. -/
def containsB (hay pat : List Char) : Bool := (firstIdx pat hay).isSome

/-- Go string slice expression `s[lo:hi]`: defined when `0 ≤ lo ≤ hi ≤ len s`,
otherwise the program panics (`none`). -/
def goSlice (s : List Char) (lo hi : Int) : Option (List Char) :=
  if 0 ≤ lo ∧ lo ≤ hi ∧ hi ≤ (s.length : Int) then
    some ((s.drop lo.toNat).take (hi.toNat - lo.toNat))
  else none

/-- Go `unicode` style decimal-digit test used by the `strconv.Atoi` model. -/
def isDigitB (c : Char) : Bool := '0' ≤ c && c ≤ '9'

/-- Decimal value of a digit string. -/
def digitsToNat (l : List Char) : Nat :=
  l.foldl (fun acc c => acc * 10 + (c.toNat - 48)) 0

/-- Model of Go `strconv.Atoi`: optional sign, then one or more decimal
digits; the value must fit in a 64-bit `int`.  Errors carry the message of the
`*strconv.NumError` the code would format with `%w`. -/
def atoi (s : List Char) : Except (List Char) Int :=
  let eSyn := strL ("strconv.Atoi: parsing \"") ++ s ++ strL ("\": invalid syntax")
  let eRange := strL ("strconv.Atoi: parsing \"") ++ s ++ strL ("\": value out of range")
  let core : Bool × List Char :=
    match s with
    | '+' :: t => (false, t)
    | '-' :: t => (true, t)
    | t => (false, t)
  if core.2 = [] then .error eSyn
  else if core.2.all isDigitB then
    let n : Int := if core.1 then -(digitsToNat core.2 : Int) else (digitsToNat core.2 : Int)
    if -(2 ^ 63) ≤ n ∧ n ≤ 2 ^ 63 - 1 then .ok n else .error eRange
  else .error eSyn

/-- No occurrence of `pat` can start inside `u`, whatever list follows `u`:
at every start position in `u`, the part of `pat` that overlaps `u` already
mismatches. -/
def noMatchIn (pat u : List Char) : Prop :=
  ∀ i, i < u.length → isPrefixOfB (pat.take (u.length - i)) (u.drop i) = false

instance noMatchInDec (pat u : List Char) : Decidable (noMatchIn pat u) :=
  decidable_of_iff
    (∀ i, i < u.length → isPrefixOfB (pat.take (u.length - i)) (u.drop i) = false) Iff.rfl

theorem ipb_take_false : ∀ (l pat r : List Char),
    isPrefixOfB (pat.take l.length) l = false → isPrefixOfB pat (l ++ r) = false := by
  intro l
  induction l with
  | nil => intro pat r h; simp [isPrefixOfB] at h
  | cons b bs ih =>
    intro pat r h
    cases pat with
    | nil => simp [isPrefixOfB] at h
    | cons a as =>
      by_cases hab : a = b
      · subst hab
        rw [List.length_cons, List.take_succ_cons] at h
        simp only [isPrefixOfB, if_pos rfl] at h
        simpa only [List.cons_append, isPrefixOfB, if_pos rfl] using ih as r h
      · simp only [List.cons_append, isPrefixOfB, if_neg hab]

theorem firstIdx_append_noMatch (pat : List Char) :
    ∀ u v : List Char, noMatchIn pat u →
      firstIdx pat (u ++ v) = (firstIdx pat v).map (· + u.length) := by
  intro u
  induction u with
  | nil =>
    intro v _
    cases h : firstIdx pat v <;> simp [h]
  | cons a u ih =>
    intro v h
    have h0 := h 0 (by simp)
    simp only [List.length_cons, Nat.sub_zero, List.drop_zero] at h0
    have hfalse : isPrefixOfB pat ((a :: u) ++ v) = false := by
      apply ipb_take_false (a :: u) pat v
      simpa using h0
    have htail : noMatchIn pat u := by
      intro i hi
      have := h (i + 1) (by simpa using Nat.succ_lt_succ hi)
      simpa [Nat.succ_sub_succ] using this
    rw [List.cons_append, firstIdx, if_neg (by simp [List.cons_append] at hfalse ⊢; exact hfalse)]
    rw [ih v htail]
    cases firstIdx pat v with
    | none => rfl
    | some n => simp; omega

theorem noMatchIn_of_head (pat u : List Char) (c : Char) (hp : pat.head? = some c)
    (h : ∀ x ∈ u, c ≠ x) : noMatchIn pat u := by
  cases pat with
  | nil => simp at hp
  | cons p pr =>
    have hpc : p = c := by simpa using hp
    subst hpc
    intro i hi
    have hub : u.length - i = (u.length - i - 1) + 1 := by omega
    have hdrop : u.drop i = u[i] :: u.drop (i + 1) := List.drop_eq_getElem_cons hi
    rw [hub, List.take_succ_cons, hdrop]
    simp only [isPrefixOfB, if_neg (h u[i] (u.getElem_mem hi))]

theorem ipb_self_append (pat v : List Char) : isPrefixOfB pat (pat ++ v) = true := by
  induction pat with
  | nil => simp [isPrefixOfB]
  | cons a as ih => simpa [isPrefixOfB] using ih

theorem firstIdx_of_ipb (pat l : List Char) (h : isPrefixOfB pat l = true) :
    firstIdx pat l = some 0 := by
  cases l with
  | nil => simp [firstIdx, h]
  | cons a t => simp [firstIdx, h]

theorem firstIdx_self_append (pat v : List Char) : firstIdx pat (pat ++ v) = some 0 :=
  firstIdx_of_ipb pat (pat ++ v) (ipb_self_append pat v)

theorem firstIdx_cons_false (pat : List Char) (a : Char) (t : List Char)
    (h : isPrefixOfB pat (a :: t) = false) :
    firstIdx pat (a :: t) = (firstIdx pat t).map (· + 1) := by
  simp [firstIdx, h]

theorem firstIdx_isSome_append (pat : List Char) :
    ∀ u v : List Char, (firstIdx pat (u ++ pat ++ v)).isSome = true := by
  intro u
  induction u with
  | nil =>
    intro v
    simp only [List.nil_append]
    rw [firstIdx_self_append]
    rfl
  | cons a u ih =>
    intro v
    rw [List.cons_append, List.cons_append]
    by_cases h : isPrefixOfB pat (a :: (u ++ pat ++ v)) = true
    · rw [firstIdx_of_ipb _ _ h]
      rfl
    · rw [firstIdx_cons_false _ _ _ (Bool.of_not_eq_true h)]
      have := ih v
      cases hfi : firstIdx pat (u ++ pat ++ v) with
      | none => rw [hfi] at this; exact absurd this (by simp)
      | some n => rfl

theorem ipb_two_ext (c : Char) (D : List Char) (r0 : Char) (rt : List Char)
    (hD : isPrefixOfB [c, c] D = false) (hr : c ≠ r0) :
    isPrefixOfB [c, c] (D ++ r0 :: rt) = false := by
  match D with
  | [] => simp [isPrefixOfB, hr]
  | [d] =>
    by_cases hcd : c = d
    · subst hcd; simp [isPrefixOfB, hr]
    · simp [isPrefixOfB, hcd]
  | d1 :: d2 :: D' =>
    by_cases h1 : c = d1
    · subst h1
      by_cases h2 : c = d2
      · subst h2; simp [isPrefixOfB] at hD
      · simp [isPrefixOfB, h2]
    · simp [isPrefixOfB, h1]

theorem all_digits_ne (l : List Char) (h : l.all isDigitB = true) (c : Char)
    (hc : isDigitB c = false) : ∀ x ∈ l, c ≠ x := by
  intro x hx heq
  subst heq
  rw [List.all_eq_true] at h
  rw [h c hx] at hc
  exact Bool.noConfusion hc

/-- The result of one HTTP response read: `ioutil.ReadAll(resp.Body)` can fail,
otherwise it yields the body bytes. -/
inductive RespRead where
  | readFail (e : List Char)
  | bytes (b : List Char)
  deriving DecidableEq, Repr

/-- The outcome of one HTTP round trip: the client call itself can fail, or a
response arrives whose body is then read. -/
inductive HttpOut where
  | connFail (e : List Char)
  | resp (r : RespRead)
  deriving DecidableEq, Repr

/-- Result of a Go call that can panic: `none` is a run-time abort, otherwise
either an error value or a success value is returned. -/
abbrev GoResult (α : Type) := Option (Except (List Char) α)

/-- The error-envelope marker `HandleResponse` searches for. -/
def errMarker : List Char := strL ("\"error\"")

/-- Marker `type":` used to locate the numeric error type. -/
def patType : List Char := strL ("type\":")

/-- Marker `,"address` ending the numeric error type. -/
def patAddr : List Char := strL (",\"address")

/-- Marker `description":"` starting the error description. -/
def patDesc : List Char := strL ("description\":\"")

/-- Marker `"}}` ending the error description. -/
def patEnd : List Char := strL ("\"\x7d\x7d")

/-- `HandleResponse` (bridge.go:152-171): reads the body; if it contains
`"error"`, slices out the error type between `type":` and `,"address` and the
description between `description":"` and `"}}` and fails with the composed
message; otherwise returns the body (the fresh `bytes.NewReader` is the same
byte sequence, so it is not modelled separately). -/
def handleResponse : RespRead → GoResult (List Char)
  | .readFail e => some (.error (strL ("unable to read response: ") ++ e))
  | .bytes body =>
    if containsB body errMarker then
      match goSlice body (strIndex body patType + 6) (strIndex body patAddr) with
      | none => none
      | some errNum =>
        match goSlice body (strIndex body patDesc + 14) (strIndex body patEnd) with
        | none => none
        | some errDesc =>
          some (.error (strL ("failed to handle response: error type ") ++ errNum
            ++ strL (": ") ++ errDesc))
    else some (.ok body)

/-- `Bridge.Get` (bridge.go:63-76): on connection failure or body-read failure
returns a wrapped error; otherwise returns the body bytes directly, without
calling `HandleResponse`. -/
def get : HttpOut → Except (List Char) (List Char)
  | .connFail e => .error (strL ("unable to access bridge: ") ++ e)
  | .resp (.readFail e) => .error (strL ("unable to read response body: ") ++ e)
  | .resp (.bytes b) => .ok b

/-- `Bridge.Put` (bridge.go:80-99): marshals the params (marshalling of the
plain maps used by this library always succeeds and is not modelled), sends the
request, and routes the response through `HandleResponse`. -/
def put : HttpOut → GoResult (List Char)
  | .connFail e => some (.error (strL ("unable to access bridge: ") ++ e))
  | .resp r => handleResponse r

/-- `Bridge.Post` (bridge.go:104-125): like `Put` (an empty body is sent when
`params` is nil); the response is routed through `HandleResponse`. -/
def post : HttpOut → GoResult (List Char)
  | .connFail e => some (.error (strL ("unable to access bridge: ") ++ e))
  | .resp r => handleResponse r

/-- `Bridge.Delete` (bridge.go:128-147): sends the request and routes the
response through `HandleResponse`, wrapping any error it reports in
`unable to access bridge: %w`.  Returns only an error (`none` in the inner
`Option` means success). -/
def delete : HttpOut → Option (Option (List Char))
  | .connFail e => some (some (strL ("unable to access bridge: ") ++ e))
  | .resp r =>
    match handleResponse r with
    | none => none
    | some (.error e) => some (some (strL ("unable to access bridge: ") ++ e))
    | some (.ok _) => some none

/-- `BridgeInfo` (bridge.go:37-52): the descriptive device fields decoded from
the bridge's `description.xml`.  Go's zero value has every field empty. -/
structure BridgeInfo where
  deviceType : List Char := []
  friendlyName : List Char := []
  manufacturer : List Char := []
  manufacturerURL : List Char := []
  modelDescription : List Char := []
  modelName : List Char := []
  modelNumber : List Char := []
  modelURL : List Char := []
  serialNumber : List Char := []
  udn : List Char := []
  deriving DecidableEq, Repr

/-- The zero `BridgeInfo` value. -/
def BridgeInfo.empty : BridgeInfo := {}

instance : Inhabited BridgeInfo := ⟨{}⟩

/-- `Bridge` (bridge.go:30-34): address, token, identity metadata. -/
structure Bridge where
  IPAddress : List Char := []
  Username : List Char := []
  Info : BridgeInfo := {}
  deriving DecidableEq, Repr

/-- The zero `Bridge` value `Bridge\x7b\x7d`. -/
def Bridge.empty : Bridge := {}

instance : Inhabited Bridge := ⟨{}⟩

/-- `Light` (light.go): the fields this development needs — the index assigned
from the response key, a name, and the back-reference pointer to the Bridge
(`nil` is `none`). -/
structure Light where
  Index : Int := 0
  Name : List Char := []
  BridgePtr : Option Bridge := none
  deriving DecidableEq, Repr

/-- The zero `Light` value. -/
def Light.empty : Light := {}

instance : Inhabited Light := ⟨{}⟩

/-- `Sensor` (sensor.go): same shape as `Light` for this development. -/
structure Sensor where
  Index : Int := 0
  Name : List Char := []
  BridgePtr : Option Bridge := none
  deriving DecidableEq, Repr

/-- The zero `Sensor` value. -/
def Sensor.empty : Sensor := {}

instance : Inhabited Sensor := ⟨{}⟩

/-- `Bridge.Login` (bridge.go:232-240): GETs `/api/\x7busername\x7d`; if `Get`
returns an error the bridge is unchanged and the error is returned, otherwise
the username is assigned.  Returns the (possibly updated) bridge and the error. -/
def login (bridge : Bridge) (username : List Char) (out : HttpOut) :
    Bridge × Option (List Char) :=
  match get out with
  | .error e => (bridge, some e)
  | .ok _ => ({ bridge with Username := username }, none)

/-- `Bridge.CreateUser` (bridge.go:252-262): POSTs the devicetype registration,
slices the token out of the body between the last `:"` and the last `"`, stores
it as the bridge's `Username` and returns it together with the updated bridge. -/
def createUser (bridge : Bridge) (out : HttpOut) : GoResult (List Char × Bridge) :=
  match post out with
  | none => none
  | some (.error e) => some (.error e)
  | some (.ok body) =>
    match goSlice body (strLastIndex body (strL (":\"")) + 2) (strLastIndex body (strL ("\""))) with
    | none => none
    | some username => some (.ok (username, { bridge with Username := username }))

/-- `FindBridges` (bridge.go:175-191): GETs the discovery endpoint, decodes the
JSON array of bridges (`unmarshal` stands for `json.Unmarshal`, external to the
library), and rejects an empty list with the dedicated error. -/
def findBridges (out : HttpOut)
    (unmarshal : List Char → Except (List Char) (List Bridge)) :
    List Bridge × Option (List Char) :=
  match get out with
  | .error e => ([], some (strL ("unable to locate bridge: ") ++ e))
  | .ok body =>
    match unmarshal body with
    | .error e => ([], some (strL ("unable to unmarshal bridge list: ") ++ e))
    | .ok bridges =>
      if bridges.length = 0 then (bridges, some (strL ("no bridges found")))
      else (bridges, none)

/-- `Bridge.GetInfo` (bridge.go:213-228): GETs `/description.xml`, decodes the
XML (`xmlDecode` stands for `xml.NewDecoder(...).Decode`, external), and stores
the result on the bridge.  Returns the (possibly updated) bridge and the error. -/
def getInfo (bridge : Bridge) (out : HttpOut)
    (xmlDecode : List Char → Except (List Char) BridgeInfo) :
    Bridge × Option (List Char) :=
  match get out with
  | .error e => (bridge, some e)
  | .ok body =>
    match xmlDecode body with
    | .error e =>
      (bridge, some (strL ("failed to decode xml response from bridge description: ") ++ e))
    | .ok data => ({ bridge with Info := data }, none)

/-- `NewBridge` (bridge.go:197-207): builds `Bridge\x7bIPAddress: ip\x7d`, runs
`GetInfo`; on error returns the zero bridge `&Bridge\x7b\x7d` with the error,
otherwise the constructed bridge. -/
def newBridge (ip : List Char) (out : HttpOut)
    (xmlDecode : List Char → Except (List Char) BridgeInfo) :
    Bridge × Option (List Char) :=
  match getInfo { IPAddress := ip } out xmlDecode with
  | (_, some e) => (Bridge.empty, some e)
  | (b2, none) => (b2, none)

/-- The `for index, light := range lightMap` loop of `GetAllLights`
(bridge.go:293-300), over one iteration order of the map.  On a key that
`strconv.Atoi` rejects it returns the empty slice with the wrapped error;
otherwise each light gets its index from the key and the bridge back-reference. -/
def lightsLoop (bridge : Bridge) : List Light → List (List Char × Light) →
    List Light × Option (List Char)
  | acc, [] => (acc, none)
  | acc, (k, l) :: rest =>
    match atoi k with
    | .error e => ([], some (strL ("unable to convert light index to integer: ") ++ e))
    | .ok n => lightsLoop bridge (acc ++ [{ l with Index := n, BridgePtr := some bridge }]) rest

/-- `Bridge.GetAllLights` (bridge.go:277-302): GETs the lights collection,
decodes the `map[string]Light` (`unmarshal` external; the list argument order
is the map's iteration order, which Go does not fix), then runs the loop. -/
def getAllLights (bridge : Bridge) (out : HttpOut)
    (unmarshal : List Char → Except (List Char) (List (List Char × Light))) :
    List Light × Option (List Char) :=
  match get out with
  | .error e => ([], some e)
  | .ok body =>
    match unmarshal body with
    | .error e => ([], some (strL ("unable to marshal GetAllLights response: ") ++ e))
    | .ok lightMap => lightsLoop bridge [] lightMap

/-- The `for index, sensor := range sensorList` loop of `GetAllSensors`
(bridge.go:376-383). -/
def sensorsLoop (bridge : Bridge) : List Sensor → List (List Char × Sensor) →
    List Sensor × Option (List Char)
  | acc, [] => (acc, none)
  | acc, (k, s) :: rest =>
    match atoi k with
    | .error e => ([], some (strL ("unable to convert sensor index to integer: ") ++ e))
    | .ok n => sensorsLoop bridge (acc ++ [{ s with Index := n, BridgePtr := some bridge }]) rest

/-- `Bridge.GetAllSensors` (bridge.go:360-385). -/
def getAllSensors (bridge : Bridge) (out : HttpOut)
    (unmarshal : List Char → Except (List Char) (List (List Char × Sensor))) :
    List Sensor × Option (List Char) :=
  match get out with
  | .error e => ([], some e)
  | .ok body =>
    match unmarshal body with
    | .error e => ([], some (strL ("unable to marshal GetAllSensors response: ") ++ e))
    | .ok sensorList => sensorsLoop bridge [] sensorList

/-- `Bridge.GetLightByIndex` (bridge.go:307-327): GETs the single-light path;
a body containing `not available` yields the out-of-bounds error before any
decoding; otherwise the decoded light gets the index and back-reference. -/
def getLightByIndex (bridge : Bridge) (index : Int) (out : HttpOut)
    (unmarshal : List Char → Except (List Char) Light) :
    Light × Option (List Char) :=
  match get out with
  | .error e => (Light.empty, some e)
  | .ok body =>
    if containsB body (strL ("not available")) then
      (Light.empty, some (strL ("Error: Light selection index out of bounds. ")))
    else
      match unmarshal body with
      | .error e => (Light.empty, some (strL ("unable to unmarshal light data: ") ++ e))
      | .ok l => ({ l with Index := index, BridgePtr := some bridge }, none)

/-- `Bridge.GetSensorByIndex` (bridge.go:389-409): mirrors the light accessor
(the decode error message really says `light` in the source). -/
def getSensorByIndex (bridge : Bridge) (index : Int) (out : HttpOut)
    (unmarshal : List Char → Except (List Char) Sensor) :
    Sensor × Option (List Char) :=
  match get out with
  | .error e => (Sensor.empty, some e)
  | .ok body =>
    if containsB body (strL ("not available")) then
      (Sensor.empty, some (strL ("Sensor selection index out of bounds. ")))
    else
      match unmarshal body with
      | .error e => (Sensor.empty, some (strL ("unable to unmarshal light data: ") ++ e))
      | .ok s => ({ s with Index := index, BridgePtr := some bridge }, none)

/-! The documented error envelope
`[\x7b"error":\x7b"type":N,"address":"/lights","description":"D"\x7d\x7d]`,
split at the numeric type `N` and the description `D`. -/

/-- Envelope text before the numeric type. -/
def envP : List Char := strL ("[\x7b\"error\":\x7b\"type\":")

/-- Envelope text between the numeric type and the description. -/
def envQ : List Char := strL (",\"address\":\"/lights\",\"description\":\"")

/-- Envelope text after the description. -/
def envR : List Char := strL ("\"\x7d\x7d]")

/-- The documented error envelope with numeric type `N` and description `D`. -/
def mkEnv (N D : List Char) : List Char := envP ++ (N ++ (envQ ++ (D ++ envR)))

theorem mkEnv_length (N D : List Char) : (mkEnv N D).length = N.length + D.length + 58 := by
  have h1 : envP.length = 18 := by decide
  have h2 : envQ.length = 36 := by decide
  have h3 : envR.length = 4 := by decide
  simp [mkEnv, h1, h2, h3]
  omega

theorem strIndex_eq (hay pat : List Char) (n : Nat) (h : firstIdx pat hay = some n) :
    strIndex hay pat = (n : Int) := by
  rw [strIndex, h]

theorem firstIdx_type (N D : List Char) : firstIdx patType (mkEnv N D) = some 12 := by
  have h1 : envP = strL ("[\x7b\"error\":\x7b\"") ++ patType := by decide
  rw [mkEnv, h1, List.append_assoc]
  rw [firstIdx_append_noMatch patType (strL ("[\x7b\"error\":\x7b\"")) _ (by decide)]
  rw [firstIdx_self_append]
  rfl

theorem firstIdx_addr (N D : List Char) (hN : N.all isDigitB = true) :
    firstIdx patAddr (mkEnv N D) = some (N.length + 18) := by
  have h1 : envQ = patAddr ++ strL ("\":\"/lights\",\"description\":\"") := by decide
  rw [mkEnv]
  rw [firstIdx_append_noMatch patAddr envP _ (by decide)]
  rw [firstIdx_append_noMatch patAddr N _
    (noMatchIn_of_head patAddr N ',' (by decide) (all_digits_ne N hN ',' (by decide)))]
  rw [h1, List.append_assoc, firstIdx_self_append]
  have hl : envP.length = 18 := by decide
  rw [hl]
  simp only [Option.map_some', Option.some.injEq]
  omega

theorem firstIdx_desc (N D : List Char) (hN : N.all isDigitB = true) :
    firstIdx patDesc (mkEnv N D) = some (N.length + 40) := by
  have h1 : envQ = strL (",\"address\":\"/lights\",\"") ++ patDesc := by decide
  rw [mkEnv]
  rw [firstIdx_append_noMatch patDesc envP _ (by decide)]
  rw [firstIdx_append_noMatch patDesc N _
    (noMatchIn_of_head patDesc N 'd' (by decide) (all_digits_ne N hN 'd' (by decide)))]
  rw [h1, List.append_assoc]
  rw [firstIdx_append_noMatch patDesc (strL (",\"address\":\"/lights\",\"")) _ (by decide)]
  rw [firstIdx_self_append]
  have hl : envP.length = 18 := by decide
  have hl2 : (strL (",\"address\":\"/lights\",\"")).length = 22 := by decide
  rw [hl, hl2]
  simp only [Option.map_some', Option.some.injEq]
  omega

theorem firstIdx_end (N D : List Char) (hN : N.all isDigitB = true)
    (hD : ∀ x ∈ D, '"' ≠ x) (hD2 : isPrefixOfB (strL ("\x7d\x7d")) D = false) :
    firstIdx patEnd (mkEnv N D) = some (N.length + D.length + 54) := by
  have h1 : envQ = strL (",\"address\":\"/lights\",\"description\":") ++ ['"'] := by decide
  rw [mkEnv]
  rw [firstIdx_append_noMatch patEnd envP _ (by decide)]
  rw [firstIdx_append_noMatch patEnd N _
    (noMatchIn_of_head patEnd N '"' (by decide) (all_digits_ne N hN '"' (by decide)))]
  rw [h1, List.append_assoc]
  rw [firstIdx_append_noMatch patEnd (strL (",\"address\":\"/lights\",\"description\":")) _
    (by decide)]
  have hstep : isPrefixOfB patEnd ('"' :: (D ++ envR)) = false := by
    show isPrefixOfB ('"' :: '\x7d' :: '\x7d' :: []) ('"' :: (D ++ envR)) = false
    simp only [isPrefixOfB, if_pos rfl]
    exact ipb_two_ext '\x7d' D '"' (strL ("\x7d\x7d]")) hD2 (by decide)
  rw [show (['"'] : List Char) ++ (D ++ envR) = '"' :: (D ++ envR) from rfl]
  rw [firstIdx_cons_false _ _ _ hstep]
  rw [firstIdx_append_noMatch patEnd D _ (noMatchIn_of_head patEnd D '"' (by decide) hD)]
  rw [show envR = patEnd ++ strL ("]") from by decide, firstIdx_self_append]
  have hl : envP.length = 18 := by decide
  have hl2 : (strL (",\"address\":\"/lights\",\"description\":")).length = 35 := by decide
  rw [hl, hl2]
  simp only [Option.map_some', Option.some.injEq]
  omega

theorem contains_marker_mkEnv (N D : List Char) : containsB (mkEnv N D) errMarker = true := by
  have h1 : envP = (strL ("[\x7b") ++ errMarker) ++ strL (":\x7b\"type\":") := by decide
  rw [containsB, mkEnv, h1, List.append_assoc (strL ("[\x7b") ++ errMarker)]
  exact firstIdx_isSome_append errMarker (strL ("[\x7b")) _

theorem goSlice_extract (u x v : List Char) (lo hi : Int)
    (hlo : lo = (u.length : Int)) (hhi : hi = (u.length : Int) + (x.length : Int)) :
    goSlice (u ++ (x ++ v)) lo hi = some x := by
  subst hlo hhi
  rw [goSlice, if_pos]
  · rw [Int.toNat_ofNat, ← Nat.cast_add, Int.toNat_ofNat, Nat.add_sub_cancel_left]
    rw [List.drop_left, List.take_left]
  · refine ⟨by omega, by omega, ?_⟩
    simp only [List.length_append]
    push_cast
    omega

theorem goSlice_num (N D : List Char) :
    goSlice (mkEnv N D) (((12 : Nat) : Int) + 6) ((N.length + 18 : Nat) : Int) = some N := by
  show goSlice (envP ++ (N ++ (envQ ++ (D ++ envR)))) _ _ = some N
  apply goSlice_extract
  · have hl : envP.length = 18 := by decide
    rw [hl]
    decide
  · have hl : envP.length = 18 := by decide
    rw [hl]
    push_cast
    omega

theorem goSlice_desc (N D : List Char) :
    goSlice (mkEnv N D) (((N.length + 40 : Nat) : Int) + 14)
      ((N.length + D.length + 54 : Nat) : Int) = some D := by
  have hshape : mkEnv N D = (envP ++ (N ++ envQ)) ++ (D ++ envR) := by
    simp [mkEnv]
  rw [hshape]
  apply goSlice_extract
  · have hl : envP.length = 18 := by decide
    have hl2 : envQ.length = 36 := by decide
    simp only [List.length_append, hl, hl2]
    push_cast
    omega
  · have hl : envP.length = 18 := by decide
    have hl2 : envQ.length = 36 := by decide
    simp only [List.length_append, hl, hl2]
    push_cast
    omega

/-- On a documented-shape error envelope whose description contains no quote
character and does not begin with `\x7d\x7d`, `HandleResponse` produces
exactly the composed error message. -/
theorem handleResponse_mkEnv (N D : List Char) (hN : N.all isDigitB = true)
    (hD : ∀ x ∈ D, '"' ≠ x) (hD2 : isPrefixOfB (strL ("\x7d\x7d")) D = false) :
    handleResponse (.bytes (mkEnv N D)) =
      some (.error (strL ("failed to handle response: error type ") ++ N
        ++ strL (": ") ++ D)) := by
  rw [handleResponse]
  rw [if_pos (contains_marker_mkEnv N D)]
  rw [strIndex_eq _ _ _ (firstIdx_type N D)]
  rw [strIndex_eq _ _ _ (firstIdx_addr N D hN)]
  rw [goSlice_num N D]
  rw [strIndex_eq _ _ _ (firstIdx_desc N D hN)]
  rw [strIndex_eq _ _ _ (firstIdx_end N D hN hD hD2)]
  rw [goSlice_desc N D]

/-- A body without the `"error"` marker passes through `HandleResponse`
unchanged. -/
theorem handleResponse_no_marker (body : List Char)
    (h : containsB body errMarker = false) :
    handleResponse (.bytes body) = some (.ok body) := by
  rw [handleResponse, if_neg]
  rw [h]
  exact Bool.false_ne_true

/-! Claim theorems. -/

/-- The spec's example bridge-rejection envelope: numeric type `1`,
description `unauthorized user`. -/
def envBody : List Char := mkEnv (strL ("1")) (strL ("unauthorized user"))

/-- A bridge that already holds an older token. -/
def bridge0 : Bridge :=
  { IPAddress := strL ("192.168.1.2"), Username := strL ("oldtoken"), Info := {} }

/-- C1: evaluation of `Login` at the failing input.  The claim says that when
the GET of `/api/\x7btoken\x7d` yields a bridge-rejection error envelope,
`Login` returns an error and leaves `Username` unchanged.  In the code `Get`
never classifies the body, so `Login` sees no error: on the envelope body it
returns `nil` error and overwrites the stored credential with the bad token,
contradicting `Login`'s own doc comment (`only assigns the bridge its Username
value if verification is successful`). -/
theorem C1_login_stores_token_despite_error_envelope :
    containsB envBody errMarker = true ∧
    login bridge0 (strL ("badtoken")) (.resp (.bytes envBody)) =
      ({ bridge0 with Username := strL ("badtoken") }, none) :=
  ⟨by decide, rfl⟩

/-- C2: evaluation at the failing verb.  The claim says every verb's response
is passed through the Response Classifier.  `Put`, `Post` and `Delete` do route
their responses through `HandleResponse` (which here classifies the envelope
body into the composed error), but `Get` returns the raw envelope body with no
error, so for the GET verb the classified error never reaches the caller. -/
theorem C2_get_skips_classifier :
    get (.resp (.bytes envBody)) = .ok envBody ∧
    handleResponse (.bytes envBody) =
      some (.error (strL ("failed to handle response: error type 1: unauthorized user"))) ∧
    (∀ r : RespRead, put (.resp r) = handleResponse r) ∧
    (∀ r : RespRead, post (.resp r) = handleResponse r) ∧
    delete (.resp (.bytes envBody)) =
      some (some (strL
        ("unable to access bridge: failed to handle response: error type 1: unauthorized user"))) :=
  ⟨rfl, rfl, fun _ => rfl, fun _ => rfl, rfl⟩

/-- C3 counterexample: a body that contains `"error"` but not the envelope
markers.  `strings.Index` returns `-1` for `type":` and `,"address`, so the
code slices `body[5:-1]`, an out-of-range string slice: the process aborts
(`none`), which is exactly the fatal behavior the claim rules out. -/
theorem C3_counterexample_slice_panic :
    handleResponse (.bytes (strL ("x\"error\"x"))) = none := rfl

/-- C3 amended: bodies without the `"error"` marker pass through the
classifier normally, but a body containing the marker without the full
envelope markers makes `HandleResponse` abort on an out-of-range slice, and a
`CreateUser` success body without quote characters makes the token extraction
abort the same way — not every failure is an ordinary return value. -/
theorem C3_amended_partial_safety :
    (∀ body : List Char, containsB body errMarker = false →
        handleResponse (.bytes body) = some (.ok body)) ∧
    handleResponse (.bytes (strL ("x\"error\"x"))) = none ∧
    (∀ br : Bridge, createUser br (.resp (.bytes (strL ("ok")))) = none) :=
  ⟨handleResponse_no_marker, rfl, fun _ => rfl⟩

/-- C3 witness: the no-marker branch of the amended claim at a concrete body. -/
theorem C3_amended_witness :
    handleResponse (.bytes (strL ("[]"))) = some (.ok (strL ("[]"))) :=
  C3_amended_partial_safety.1 (strL ("[]")) (by decide)

/-- C5 counterexample: a documented-shape envelope whose description begins
with `\x7d\x7d`.  The first `"\x7d\x7d` occurrence then starts one character
before the description, so the closing index is smaller than the opening one
and the slice aborts (`none`): the classifier does not produce the claimed
error message for this envelope. -/
theorem C5_counterexample_desc_brace :
    handleResponse (.bytes (mkEnv (strL ("1")) (strL ("\x7d\x7da")))) = none := rfl

/-- C5 amended: for every envelope in the documented shape whose numeric type
is a digit string and whose description contains no quote character and does
not begin with `\x7d\x7d`, the classifier fails with exactly
`failed to handle response: error type \x7bN\x7d: \x7bD\x7d`; a body without
the `"error"` marker is returned unchanged. -/
theorem C5_amended_classifier :
    (∀ N D : List Char, N ≠ [] → N.all isDigitB = true → (∀ x ∈ D, '"' ≠ x) →
        isPrefixOfB (strL ("\x7d\x7d")) D = false →
        handleResponse (.bytes (mkEnv N D)) =
          some (.error (strL ("failed to handle response: error type ") ++ N
            ++ strL (": ") ++ D))) ∧
    (∀ body : List Char, containsB body errMarker = false →
        handleResponse (.bytes body) = some (.ok body)) :=
  ⟨fun N D _ hN hD hD2 => handleResponse_mkEnv N D hN hD hD2, handleResponse_no_marker⟩

/-- C5 witness: the amended claim at the spec's example envelope. -/
theorem C5_amended_witness :
    handleResponse (.bytes (mkEnv (strL ("1")) (strL ("unauthorized user")))) =
      some (.error (strL ("failed to handle response: error type ")
        ++ strL ("1") ++ strL (": ") ++ strL ("unauthorized user"))) :=
  C5_amended_classifier.1 (strL ("1")) (strL ("unauthorized user"))
    (by decide) (by decide) (by decide) (by decide)

/-- The registration success envelope of the claim. -/
def successBody : List Char := strL ("[\x7b\"success\":\x7b\"username\":\"abc123\"\x7d\x7d]")

/-- C6: whenever `CreateUser` returns a token, the updated bridge stores that
same token as `Username`; on the claim's success envelope it returns
`abc123` and stores it (for every starting bridge). -/
theorem C6_createUser_stores_returned_token :
    (∀ (br : Bridge) (out : HttpOut) (u : List Char) (br2 : Bridge),
        createUser br out = some (.ok (u, br2)) → br2.Username = u) ∧
    (∀ br : Bridge, createUser br (.resp (.bytes successBody)) =
        some (.ok (strL ("abc123"), { br with Username := strL ("abc123") }))) := by
  constructor
  · intro br out u br2 h
    unfold createUser at h
    cases hp : post out with
    | none => rw [hp] at h; exact absurd h (by simp)
    | some r =>
      cases r with
      | error e => rw [hp] at h; simp at h
      | ok body =>
        rw [hp] at h
        simp only [] at h
        cases hs : goSlice body (strLastIndex body (strL (":\"")) + 2)
            (strLastIndex body (strL ("\""))) with
        | none => rw [hs] at h; simp at h
        | some username =>
          rw [hs] at h
          simp only [Option.some.injEq, Except.ok.injEq, Prod.mk.injEq] at h
          rw [← h.2, ← h.1]
  · intro br
    rfl

/-- C6 witness: the general conjunct applied at the concrete success envelope. -/
theorem C6_witness :
    ({ bridge0 with Username := strL ("abc123") } : Bridge).Username = strL ("abc123") :=
  C6_createUser_stores_returned_token.1 bridge0 (.resp (.bytes successBody))
    (strL ("abc123")) { bridge0 with Username := strL ("abc123") } rfl

/-- C7: `FindBridges` succeeds exactly when the GET succeeds, the decode
succeeds and the decoded list is non-empty; on the empty discovery response
`[]` it returns the dedicated `no bridges found` error; and that error differs
from every network-failure error (those carry the
`unable to locate bridge: ` prefix). -/
theorem C7_findBridges_failure_conditions :
    (∀ (out : HttpOut) (um : List Char → Except (List Char) (List Bridge)),
        (findBridges out um).2 = none ↔
          ∃ body bridges, get out = .ok body ∧ um body = .ok bridges ∧ bridges ≠ []) ∧
    (∀ um : List Char → Except (List Char) (List Bridge),
        um (strL ("[]")) = .ok [] →
        findBridges (.resp (.bytes (strL ("[]")))) um =
          ([], some (strL ("no bridges found")))) ∧
    (∀ e : List Char, strL ("no bridges found") ≠ strL ("unable to locate bridge: ") ++ e) := by
  refine ⟨?_, ?_, ?_⟩
  · intro out um
    cases hget : get out with
    | error e => simp [findBridges, hget]
    | ok body =>
      cases hum : um body with
      | error e => simp [findBridges, hget, hum]
      | ok bridges =>
        by_cases hb : bridges.length = 0
        · have : bridges = [] := List.length_eq_zero.mp hb
          subst this
          simp [findBridges, hget, hum]
        · have hne : bridges ≠ [] := by
            intro hc
            subst hc
            exact hb rfl
          simp [findBridges, hget, hum, hb, hne]
  · intro um h
    simp [findBridges, get, h]
  · intro e h
    rw [show strL ("no bridges found") = 'n' :: strL ("o bridges found") from by decide,
      show strL ("unable to locate bridge: ") = 'u' :: strL ("nable to locate bridge: ")
        from by decide, List.cons_append] at h
    injection h with h1 _
    exact absurd h1 (by decide)

/-- C7 witness: the empty-discovery conjunct at a concrete decoder. -/
theorem C7_witness :
    findBridges (.resp (.bytes (strL ("[]")))) (fun _ => .ok []) =
      ([], some (strL ("no bridges found"))) :=
  C7_findBridges_failure_conditions.2.1 (fun _ => .ok []) rfl

/-- The integer value a map key carries, as `GetAllLights`/`GetAllSensors`
compute it with `strconv.Atoi` (only used below on keys `Atoi` accepts). -/
def keyVal (k : List Char) : Int :=
  match atoi k with
  | .ok n => n
  | .error _ => 0

theorem lightsLoop_all_ok (bridge : Bridge) :
    ∀ (m : List (List Char × Light)) (acc : List Light),
      (∀ p ∈ m, ∃ n : Int, atoi p.1 = .ok n) →
      lightsLoop bridge acc m =
        (acc ++ m.map (fun p =>
          { p.2 with Index := keyVal p.1, BridgePtr := some bridge }), none) := by
  intro m
  induction m with
  | nil => intro acc _; simp [lightsLoop]
  | cons hd tl ih =>
    obtain ⟨k, l⟩ := hd
    intro acc h
    obtain ⟨n, hn⟩ := h (k, l) (by simp)
    have hkv : keyVal k = n := by simp [keyVal, hn]
    simp only [lightsLoop, hn]
    rw [ih _ (fun p hp => h p (by simp [hp]))]
    simp [hkv]

theorem sensorsLoop_all_ok (bridge : Bridge) :
    ∀ (m : List (List Char × Sensor)) (acc : List Sensor),
      (∀ p ∈ m, ∃ n : Int, atoi p.1 = .ok n) →
      sensorsLoop bridge acc m =
        (acc ++ m.map (fun p =>
          { p.2 with Index := keyVal p.1, BridgePtr := some bridge }), none) := by
  intro m
  induction m with
  | nil => intro acc _; simp [sensorsLoop]
  | cons hd tl ih =>
    obtain ⟨k, s⟩ := hd
    intro acc h
    obtain ⟨n, hn⟩ := h (k, s) (by simp)
    have hkv : keyVal k = n := by simp [keyVal, hn]
    simp only [sensorsLoop, hn]
    rw [ih _ (fun p hp => h p (by simp [hp]))]
    simp [hkv]

/-- C4: when every key of the decoded mapping is accepted by `strconv.Atoi`,
`GetAllLights` and `GetAllSensors` return, in the given iteration order (which
is arbitrary, so the property holds for every ordering of the map), one
resource per entry whose `Index` is the integer value of its key and whose
back-reference points to the queried bridge. -/
theorem C4_index_propagation (bridge : Bridge) (outL outS : HttpOut)
    (bodyL bodyS : List Char)
    (umL : List Char → Except (List Char) (List (List Char × Light)))
    (umS : List Char → Except (List Char) (List (List Char × Sensor)))
    (lm : List (List Char × Light)) (sm : List (List Char × Sensor))
    (hgL : get outL = .ok bodyL) (hum : umL bodyL = .ok lm)
    (hgS : get outS = .ok bodyS) (hus : umS bodyS = .ok sm)
    (hkL : ∀ p ∈ lm, ∃ n : Int, atoi p.1 = .ok n)
    (hkS : ∀ p ∈ sm, ∃ n : Int, atoi p.1 = .ok n) :
    getAllLights bridge outL umL =
      (lm.map (fun p => { p.2 with Index := keyVal p.1, BridgePtr := some bridge }), none) ∧
    getAllSensors bridge outS umS =
      (sm.map (fun p => { p.2 with Index := keyVal p.1, BridgePtr := some bridge }), none) := by
  constructor
  · simp only [getAllLights, hgL, hum]
    simpa using lightsLoop_all_ok bridge lm [] hkL
  · simp only [getAllSensors, hgS, hus]
    simpa using sensorsLoop_all_ok bridge sm [] hkS

/-- A sample light used in witnesses. -/
def light7 : Light := { Name := strL ("lamp") }

/-- A sample sensor used in witnesses. -/
def sensor4 : Sensor := { Name := strL ("motion") }

/-- C4 witness: key `"7"` yields index 7 (and key `"4"` index 4 for sensors),
with the back-reference set. -/
theorem C4_witness :
    getAllLights bridge0 (.resp (.bytes (strL ("x"))))
        (fun _ => .ok [(strL ("7"), light7)]) =
      ([{ light7 with Index := 7, BridgePtr := some bridge0 }], none) ∧
    getAllSensors bridge0 (.resp (.bytes (strL ("x"))))
        (fun _ => .ok [(strL ("4"), sensor4)]) =
      ([{ sensor4 with Index := 4, BridgePtr := some bridge0 }], none) := by
  have h := C4_index_propagation bridge0 (.resp (.bytes (strL ("x"))))
    (.resp (.bytes (strL ("x")))) (strL ("x")) (strL ("x"))
    (fun _ => .ok [(strL ("7"), light7)]) (fun _ => .ok [(strL ("4"), sensor4)])
    [(strL ("7"), light7)] [(strL ("4"), sensor4)] rfl rfl rfl rfl
    (by
      intro p hp
      have hp2 : p = (strL ("7"), light7) := by simpa using hp
      subst hp2
      exact ⟨7, rfl⟩)
    (by
      intro p hp
      have hp2 : p = (strL ("4"), sensor4) := by simpa using hp
      subst hp2
      exact ⟨4, rfl⟩)
  exact h

theorem lightsLoop_bad_key (bridge : Bridge) :
    ∀ (m : List (List Char × Light)) (acc : List Light),
      (∃ p ∈ m, ∃ e, atoi p.1 = .error e) →
      ∃ e, lightsLoop bridge acc m =
        ([], some (strL ("unable to convert light index to integer: ") ++ e)) := by
  intro m
  induction m with
  | nil => intro acc h; simp at h
  | cons hd tl ih =>
    obtain ⟨k, l⟩ := hd
    intro acc h
    cases ha : atoi k with
    | error e => exact ⟨e, by simp [lightsLoop, ha]⟩
    | ok n =>
      simp only [lightsLoop, ha]
      apply ih
      obtain ⟨p, hp, e, he⟩ := h
      rcases List.mem_cons.mp hp with h1 | h1
      · subst h1
        rw [ha] at he
        exact absurd he (by simp)
      · exact ⟨p, h1, e, he⟩

theorem sensorsLoop_bad_key (bridge : Bridge) :
    ∀ (m : List (List Char × Sensor)) (acc : List Sensor),
      (∃ p ∈ m, ∃ e, atoi p.1 = .error e) →
      ∃ e, sensorsLoop bridge acc m =
        ([], some (strL ("unable to convert sensor index to integer: ") ++ e)) := by
  intro m
  induction m with
  | nil => intro acc h; simp at h
  | cons hd tl ih =>
    obtain ⟨k, s⟩ := hd
    intro acc h
    cases ha : atoi k with
    | error e => exact ⟨e, by simp [sensorsLoop, ha]⟩
    | ok n =>
      simp only [sensorsLoop, ha]
      apply ih
      obtain ⟨p, hp, e, he⟩ := h
      rcases List.mem_cons.mp hp with h1 | h1
      · subst h1
        rw [ha] at he
        exact absurd he (by simp)
      · exact ⟨p, h1, e, he⟩

/-- C10: if any key of the decoded mapping is rejected by `strconv.Atoi`
(whatever the iteration order), `GetAllLights` and `GetAllSensors` return the
empty list together with the wrapped key-conversion error — never a partial
list of the entries whose keys did parse. -/
theorem C10_bad_key_empty_result (bridge : Bridge) (outL outS : HttpOut)
    (bodyL bodyS : List Char)
    (umL : List Char → Except (List Char) (List (List Char × Light)))
    (umS : List Char → Except (List Char) (List (List Char × Sensor)))
    (lm : List (List Char × Light)) (sm : List (List Char × Sensor))
    (hgL : get outL = .ok bodyL) (hum : umL bodyL = .ok lm)
    (hgS : get outS = .ok bodyS) (hus : umS bodyS = .ok sm)
    (hbL : ∃ p ∈ lm, ∃ e, atoi p.1 = .error e)
    (hbS : ∃ p ∈ sm, ∃ e, atoi p.1 = .error e) :
    (∃ e, getAllLights bridge outL umL =
        ([], some (strL ("unable to convert light index to integer: ") ++ e))) ∧
    (∃ e, getAllSensors bridge outS umS =
        ([], some (strL ("unable to convert sensor index to integer: ") ++ e))) := by
  constructor
  · simp only [getAllLights, hgL, hum]
    exact lightsLoop_bad_key bridge lm [] hbL
  · simp only [getAllSensors, hgS, hus]
    exact sensorsLoop_bad_key bridge sm [] hbS

/-- C10 witness: a scene-style key `7f` makes both accessors fail with the
conversion error and an empty list, even though a second entry (`7`) would
have parsed. -/
theorem C10_witness :
    (∃ e, getAllLights bridge0 (.resp (.bytes (strL ("x"))))
        (fun _ => .ok [(strL ("7f"), light7), (strL ("7"), light7)]) =
        ([], some (strL ("unable to convert light index to integer: ") ++ e))) ∧
    (∃ e, getAllSensors bridge0 (.resp (.bytes (strL ("x"))))
        (fun _ => .ok [(strL ("7f"), sensor4)]) =
        ([], some (strL ("unable to convert sensor index to integer: ") ++ e))) :=
  C10_bad_key_empty_result bridge0 (.resp (.bytes (strL ("x"))))
    (.resp (.bytes (strL ("x")))) (strL ("x")) (strL ("x"))
    (fun _ => .ok [(strL ("7f"), light7), (strL ("7"), light7)])
    (fun _ => .ok [(strL ("7f"), sensor4)])
    [(strL ("7f"), light7), (strL ("7"), light7)] [(strL ("7f"), sensor4)]
    rfl rfl rfl rfl
    ⟨(strL ("7f"), light7), by simp, strL ("strconv.Atoi: parsing \"7f\": invalid syntax"), rfl⟩
    ⟨(strL ("7f"), sensor4), by simp, strL ("strconv.Atoi: parsing \"7f\": invalid syntax"), rfl⟩

/-- C8: on a body containing `not available`, `GetLightByIndex` and
`GetSensorByIndex` return the out-of-bounds domain error without consulting
the JSON decoder (the result does not depend on `umL`/`umS`); a transport
failure carries the `unable to access bridge: ` message, which differs from
both out-of-bounds messages; and on a decodable body without the marker the
resource comes back with `Index := i` and the bridge back-reference. -/
theorem C8_by_index_errors (bridge : Bridge) (i : Int) (bodyNA bodyOK e : List Char)
    (umL : List Char → Except (List Char) Light)
    (umS : List Char → Except (List Char) Sensor)
    (l : Light) (s : Sensor)
    (hna : containsB bodyNA (strL ("not available")) = true)
    (hok : containsB bodyOK (strL ("not available")) = false)
    (hl : umL bodyOK = .ok l) (hs : umS bodyOK = .ok s) :
    getLightByIndex bridge i (.resp (.bytes bodyNA)) umL =
      (Light.empty, some (strL ("Error: Light selection index out of bounds. "))) ∧
    getSensorByIndex bridge i (.resp (.bytes bodyNA)) umS =
      (Sensor.empty, some (strL ("Sensor selection index out of bounds. "))) ∧
    getLightByIndex bridge i (.connFail e) umL =
      (Light.empty, some (strL ("unable to access bridge: ") ++ e)) ∧
    getSensorByIndex bridge i (.connFail e) umS =
      (Sensor.empty, some (strL ("unable to access bridge: ") ++ e)) ∧
    strL ("unable to access bridge: ") ++ e ≠
      strL ("Error: Light selection index out of bounds. ") ∧
    strL ("unable to access bridge: ") ++ e ≠
      strL ("Sensor selection index out of bounds. ") ∧
    getLightByIndex bridge i (.resp (.bytes bodyOK)) umL =
      ({ l with Index := i, BridgePtr := some bridge }, none) ∧
    getSensorByIndex bridge i (.resp (.bytes bodyOK)) umS =
      ({ s with Index := i, BridgePtr := some bridge }, none) := by
  refine ⟨?_, ?_, rfl, rfl, ?_, ?_, ?_, ?_⟩
  · simp only [getLightByIndex, get, if_pos hna]
  · simp only [getSensorByIndex, get, if_pos hna]
  · intro h
    rw [show strL ("unable to access bridge: ") = 'u' :: strL ("nable to access bridge: ")
        from by decide,
      show strL ("Error: Light selection index out of bounds. ")
          = 'E' :: strL ("rror: Light selection index out of bounds. ") from by decide,
      List.cons_append] at h
    injection h with h1 _
    exact absurd h1 (by decide)
  · intro h
    rw [show strL ("unable to access bridge: ") = 'u' :: strL ("nable to access bridge: ")
        from by decide,
      show strL ("Sensor selection index out of bounds. ")
          = 'S' :: strL ("ensor selection index out of bounds. ") from by decide,
      List.cons_append] at h
    injection h with h1 _
    exact absurd h1 (by decide)
  · simp only [getLightByIndex, get]
    rw [if_neg (by rw [hok]; exact Bool.false_ne_true), hl]
  · simp only [getSensorByIndex, get]
    rw [if_neg (by rw [hok]; exact Bool.false_ne_true), hs]

/-- C8 witness: the theorem at a body carrying `not available`, a plain
transport error, and a decodable success body. -/
theorem C8_witness :
    getLightByIndex bridge0 3 (.resp (.bytes (strL ("resource, not available")))) 
        (fun _ => .ok light7) =
      (Light.empty, some (strL ("Error: Light selection index out of bounds. "))) ∧
    getSensorByIndex bridge0 3 (.resp (.bytes (strL ("resource, not available"))))
        (fun _ => .ok sensor4) =
      (Sensor.empty, some (strL ("Sensor selection index out of bounds. "))) ∧
    getLightByIndex bridge0 3 (.connFail (strL ("timeout"))) (fun _ => .ok light7) =
      (Light.empty, some (strL ("unable to access bridge: ") ++ strL ("timeout"))) ∧
    getSensorByIndex bridge0 3 (.connFail (strL ("timeout"))) (fun _ => .ok sensor4) =
      (Sensor.empty, some (strL ("unable to access bridge: ") ++ strL ("timeout"))) ∧
    strL ("unable to access bridge: ") ++ strL ("timeout") ≠
      strL ("Error: Light selection index out of bounds. ") ∧
    strL ("unable to access bridge: ") ++ strL ("timeout") ≠
      strL ("Sensor selection index out of bounds. ") ∧
    getLightByIndex bridge0 3 (.resp (.bytes (strL ("\x7b\x7d")))) (fun _ => .ok light7) =
      ({ light7 with Index := 3, BridgePtr := some bridge0 }, none) ∧
    getSensorByIndex bridge0 3 (.resp (.bytes (strL ("\x7b\x7d")))) (fun _ => .ok sensor4) =
      ({ sensor4 with Index := 3, BridgePtr := some bridge0 }, none) :=
  C8_by_index_errors bridge0 3 (strL ("resource, not available")) (strL ("\x7b\x7d"))
    (strL ("timeout")) (fun _ => .ok light7) (fun _ => .ok sensor4) light7 sensor4
    (by decide) (by decide) rfl rfl

/-- C9: `NewBridge` hands back the zero bridge (no address, no token, no
identity metadata) together with the error whenever `GetInfo` fails — either
because `Get` fails or because the XML decode fails — and on success returns
the bridge holding the given address and the decoded identity metadata. -/
theorem C9_newBridge_all_or_nothing (ip e bodyS bodyF eDec : List Char)
    (outE outS outF : HttpOut)
    (xd : List Char → Except (List Char) BridgeInfo) (d : BridgeInfo)
    (hE : get outE = .error e)
    (hS : get outS = .ok bodyS) (hdS : xd bodyS = .ok d)
    (hF : get outF = .ok bodyF) (hdF : xd bodyF = .error eDec) :
    newBridge ip outE xd = (Bridge.empty, some e) ∧
    newBridge ip outF xd =
      (Bridge.empty,
        some (strL ("failed to decode xml response from bridge description: ") ++ eDec)) ∧
    newBridge ip outS xd = ({ IPAddress := ip, Username := [], Info := d }, none) := by
  refine ⟨?_, ?_, ?_⟩
  · simp only [newBridge, getInfo, hE]
  · simp only [newBridge, getInfo, hF, hdF]
  · simp only [newBridge, getInfo, hS, hdS]

/-- A sample decoded `BridgeInfo` used in witnesses. -/
def info0 : BridgeInfo := { modelName := strL ("Philips hue bridge 2015") }

/-- C9 witness: the theorem at a concrete failing GET, a concrete body the
decoder rejects, and a concrete body it accepts. -/
theorem C9_witness :
    newBridge (strL ("192.168.86.27")) (.connFail (strL ("refused")))
        (fun b => if b = strL ("<root/>") then .ok info0 else .error (strL ("EOF"))) =
      (Bridge.empty, some (strL ("unable to access bridge: refused"))) ∧
    newBridge (strL ("192.168.86.27")) (.resp (.bytes (strL ("bad"))))
        (fun b => if b = strL ("<root/>") then .ok info0 else .error (strL ("EOF"))) =
      (Bridge.empty,
        some (strL ("failed to decode xml response from bridge description: ")
          ++ strL ("EOF"))) ∧
    newBridge (strL ("192.168.86.27")) (.resp (.bytes (strL ("<root/>"))))
        (fun b => if b = strL ("<root/>") then .ok info0 else .error (strL ("EOF"))) =
      ({ IPAddress := strL ("192.168.86.27"), Username := [], Info := info0 }, none) :=
  C9_newBridge_all_or_nothing (strL ("192.168.86.27"))
    (strL ("unable to access bridge: refused")) (strL ("<root/>")) (strL ("bad"))
    (strL ("EOF")) (.connFail (strL ("refused"))) (.resp (.bytes (strL ("<root/>"))))
    (.resp (.bytes (strL ("bad"))))
    (fun b => if b = strL ("<root/>") then .ok info0 else .error (strL ("EOF"))) info0
    rfl rfl (by simp) rfl (by simp [strL])

end GoHue

